import Mathlib

/-!
Shallow embedding of the physics core of the half-Atwood teaching
simulation: the two force solvers of `src/halfAtwoodPhysics.js` and the
resonance-tube equations of `src/resonancePhysics.js`, modelled over the
reals, together with theorems checking the specification's claims.
-/

open Classical

noncomputable section

/-- Threshold below which a speed is treated as momentarily at rest
(`VELOCITY_EPSILON` in `src/halfAtwoodPhysics.js`, line 1). -/
def VELOCITY_EPSILON : ℝ := 1e-4

/-- Regime classification shared by both solvers (`mode` field). -/
inductive Mode
  | frictionless
  | kinetic
  | static_hold
deriving DecidableEq

/-- Input object of `calculateHalfAtwoodFromRest`. -/
structure FromRestInput where
  massTableKg : ℝ
  massHangingKg : ℝ
  mu : ℝ
  frictionEnabled : Bool
  gravity : ℝ
  targetDistanceM : ℝ

/-- Result object of `calculateHalfAtwoodFromRest`. -/
structure FromRestResult where
  accelerationMps2 : ℝ
  tensionN : ℝ
  frictionN : ℝ
  netForceN : ℝ
  driveForceN : ℝ
  moved : Prop
  timeToTargetS : Option ℝ
  mode : Mode

/-- Embedding of `calculateHalfAtwoodFromRest` from
`src/halfAtwoodPhysics.js`, lines 26-100. -/
def calculateHalfAtwoodFromRest (input : FromRestInput) : FromRestResult :=
  let massTableKg := max 0 input.massTableKg
  let massHangingKg := max 0 input.massHangingKg
  let gravity := max 0 input.gravity
  let mu := max 0 input.mu
  let targetDistanceM := max 0 input.targetDistanceM
  let totalMassKg := massTableKg + massHangingKg
  let driveForceN := massHangingKg * gravity
  if totalMassKg ≤ 0 then
    { accelerationMps2 := 0
      tensionN := 0
      frictionN := 0
      netForceN := 0
      driveForceN := driveForceN
      moved := False
      timeToTargetS := none
      mode := Mode.static_hold }
  else if input.frictionEnabled = false ∨ mu = 0 then
    let accelerationMps2 := driveForceN / totalMassKg
    let tensionN := massHangingKg * (gravity - accelerationMps2)
    let timeToTargetS :=
      if 0 < accelerationMps2 ∧ 0 < targetDistanceM then
        some (Real.sqrt (2 * targetDistanceM / accelerationMps2))
      else none
    { accelerationMps2 := accelerationMps2
      tensionN := tensionN
      frictionN := 0
      netForceN := driveForceN
      driveForceN := driveForceN
      moved := 0 < accelerationMps2
      timeToTargetS := timeToTargetS
      mode := Mode.frictionless }
  else
    let frictionN := mu * massTableKg * gravity
    if driveForceN ≤ frictionN then
      { accelerationMps2 := 0
        tensionN := driveForceN
        frictionN := driveForceN
        netForceN := 0
        driveForceN := driveForceN
        moved := False
        timeToTargetS := none
        mode := Mode.static_hold }
    else
      let netForceN := driveForceN - frictionN
      let accelerationMps2 := netForceN / totalMassKg
      let tensionN := massHangingKg * (gravity - accelerationMps2)
      let timeToTargetS :=
        if 0 < accelerationMps2 ∧ 0 < targetDistanceM then
          some (Real.sqrt (2 * targetDistanceM / accelerationMps2))
        else none
      { accelerationMps2 := accelerationMps2
        tensionN := tensionN
        frictionN := frictionN
        netForceN := netForceN
        driveForceN := driveForceN
        moved := 0 < accelerationMps2
        timeToTargetS := timeToTargetS
        mode := Mode.kinetic }

/-- Input object of `resolveDynamicForces`. -/
structure DynamicInput where
  massTableKg : ℝ
  massHangingKg : ℝ
  mu : ℝ
  frictionEnabled : Bool
  gravity : ℝ
  velocityMps : ℝ

/-- Result object of `resolveDynamicForces`. -/
structure DynamicResult where
  accelerationMps2 : ℝ
  tensionN : ℝ
  frictionSignedN : ℝ
  frictionMagnitudeN : ℝ
  netForceN : ℝ
  driveForceN : ℝ
  mode : Mode
deriving DecidableEq

/-- Embedding of `resolveDynamicForces` from `src/halfAtwoodPhysics.js`,
lines 114-189. -/
def resolveDynamicForces (input : DynamicInput) : DynamicResult :=
  let massTableKg := max 0 input.massTableKg
  let massHangingKg := max 0 input.massHangingKg
  let gravity := max 0 input.gravity
  let mu := max 0 input.mu
  let totalMassKg := massTableKg + massHangingKg
  let driveForceN := massHangingKg * gravity
  if totalMassKg ≤ 0 then
    { accelerationMps2 := 0
      tensionN := 0
      frictionSignedN := 0
      frictionMagnitudeN := 0
      netForceN := 0
      driveForceN := driveForceN
      mode := Mode.static_hold }
  else if input.frictionEnabled = false ∨ mu = 0 then
    let accelerationMps2 := driveForceN / totalMassKg
    { accelerationMps2 := accelerationMps2
      tensionN := massHangingKg * (gravity - accelerationMps2)
      frictionSignedN := 0
      frictionMagnitudeN := 0
      netForceN := driveForceN
      driveForceN := driveForceN
      mode := Mode.frictionless }
  else
    let kineticMagnitudeN := mu * massTableKg * gravity
    let speed := input.velocityMps
    if |speed| ≤ VELOCITY_EPSILON then
      if driveForceN ≤ kineticMagnitudeN then
        { accelerationMps2 := 0
          tensionN := driveForceN
          frictionSignedN := -driveForceN
          frictionMagnitudeN := driveForceN
          netForceN := 0
          driveForceN := driveForceN
          mode := Mode.static_hold }
      else
        let netForceN := driveForceN - kineticMagnitudeN
        let accelerationMps2 := netForceN / totalMassKg
        { accelerationMps2 := accelerationMps2
          tensionN := massHangingKg * (gravity - accelerationMps2)
          frictionSignedN := -kineticMagnitudeN
          frictionMagnitudeN := kineticMagnitudeN
          netForceN := netForceN
          driveForceN := driveForceN
          mode := Mode.kinetic }
    else
      let frictionSignedN := if 0 < speed then -kineticMagnitudeN else kineticMagnitudeN
      let netForceN := driveForceN + frictionSignedN
      let accelerationMps2 := netForceN / totalMassKg
      { accelerationMps2 := accelerationMps2
        tensionN := massHangingKg * (gravity - accelerationMps2)
        frictionSignedN := frictionSignedN
        frictionMagnitudeN := kineticMagnitudeN
        netForceN := netForceN
        driveForceN := driveForceN
        mode := Mode.kinetic }

/-- End-correction constant of `src/resonancePhysics.js`, line 1. -/
def END_CORRECTION_FACTOR : ℝ := 0.3

/-- Input object of `firstHarmonicAirLengthM`. -/
structure HarmonicInput where
  frequencyHz : ℝ
  speedMps : ℝ
  tubeDiameterM : ℝ

/-- Embedding of `firstHarmonicAirLengthM` from `src/resonancePhysics.js`,
lines 16-19. -/
def firstHarmonicAirLengthM (input : HarmonicInput) : ℝ :=
  let effectiveLengthM := input.speedMps / (4 * input.frequencyHz)
  effectiveLengthM - END_CORRECTION_FACTOR * input.tubeDiameterM

/-- Input object of `inferredSpeedMps`. -/
structure InferredSpeedInput where
  frequencyHz : ℝ
  airLengthM : ℝ
  tubeDiameterM : ℝ

/-- Embedding of `inferredSpeedMps` from `src/resonancePhysics.js`,
lines 25-27. -/
def inferredSpeedMps (input : InferredSpeedInput) : ℝ :=
  4 * input.frequencyHz * (input.airLengthM + END_CORRECTION_FACTOR * input.tubeDiameterM)

/-- Input object of `resonanceStrength`; `bandwidthM = none` models the
omitted optional argument. -/
structure StrengthInput where
  airLengthM : ℝ
  targetLengthM : ℝ
  bandwidthM : Option ℝ

/-- Embedding of `resonanceStrength` from `src/resonancePhysics.js`,
lines 34-39; `Option.getD` models the `??` default. -/
def resonanceStrength (input : StrengthInput) : ℝ :=
  let bandwidthM := input.bandwidthM.getD (max 0.008 (input.targetLengthM * 0.06))
  let delta := input.airLengthM - input.targetLengthM
  let exponent := -(delta * delta) / (2 * bandwidthM * bandwidthM)
  Real.exp exponent

/-- Result object of `qualityBand`. -/
structure QualityBand where
  label : String
  accepted : Bool
  css : String
deriving DecidableEq

/-- Embedding of `qualityBand` from `src/resonancePhysics.js`,
lines 45-67. -/
def qualityBand (strength : ℝ) : QualityBand :=
  if strength ≥ 0.94 then
    { label := "High", accepted := true, css := "good" }
  else if strength ≥ 0.8 then
    { label := "Fair", accepted := false, css := "ok" }
  else
    { label := "Off peak", accepted := false, css := "low" }

/-- Claim C1: with friction enabled, positive friction coefficient, positive
clamped total mass and a speed of magnitude at most `VELOCITY_EPSILON`,
`resolveDynamicForces` re-runs the static-vs-kinetic decision of the
from-rest solver: if the drive force is at most the Coulomb cap it reports a
static hold with zero acceleration and net force, tension equal to the drive
force and signed friction equal to minus the drive force; otherwise it
reports kinetic motion with signed friction equal to minus the Coulomb cap,
net force equal to drive minus cap and acceleration equal to net force over
total mass — and the result does not depend on the sign of the velocity. -/
theorem resolveDynamic_nearRest_static_decision (mT mH mu g v : ℝ)
    (hmu : 0 < mu) (hm : 0 < max 0 mT + max 0 mH) (hv : |v| ≤ VELOCITY_EPSILON) :
    resolveDynamicForces ⟨mT, mH, mu, true, g, v⟩ =
      resolveDynamicForces ⟨mT, mH, mu, true, g, -v⟩ ∧
    (max 0 mH * max 0 g ≤ max 0 mu * max 0 mT * max 0 g →
      resolveDynamicForces ⟨mT, mH, mu, true, g, v⟩ =
        { accelerationMps2 := 0
          tensionN := max 0 mH * max 0 g
          frictionSignedN := -(max 0 mH * max 0 g)
          frictionMagnitudeN := max 0 mH * max 0 g
          netForceN := 0
          driveForceN := max 0 mH * max 0 g
          mode := Mode.static_hold }) ∧
    (max 0 mu * max 0 mT * max 0 g < max 0 mH * max 0 g →
      resolveDynamicForces ⟨mT, mH, mu, true, g, v⟩ =
        { accelerationMps2 :=
            (max 0 mH * max 0 g - max 0 mu * max 0 mT * max 0 g) / (max 0 mT + max 0 mH)
          tensionN :=
            max 0 mH * (max 0 g -
              (max 0 mH * max 0 g - max 0 mu * max 0 mT * max 0 g) / (max 0 mT + max 0 mH))
          frictionSignedN := -(max 0 mu * max 0 mT * max 0 g)
          frictionMagnitudeN := max 0 mu * max 0 mT * max 0 g
          netForceN := max 0 mH * max 0 g - max 0 mu * max 0 mT * max 0 g
          driveForceN := max 0 mH * max 0 g
          mode := Mode.kinetic }) := by
  have hMu : max 0 mu = mu := max_eq_right hmu.le
  have hm' : ¬ (max 0 mT + max 0 mH ≤ 0) := not_le.mpr hm
  have hcond : ¬ (true = false ∨ max 0 mu = 0) := by
    simp [hMu, hmu.ne']
  have hvneg : |(-v)| ≤ VELOCITY_EPSILON := by rwa [abs_neg]
  refine ⟨?_, ?_, ?_⟩
  · simp only [resolveDynamicForces]
    rw [if_neg hm', if_neg hcond, if_pos hv, if_neg hm', if_neg hcond, if_pos hvneg]
  · intro hdrive
    simp only [resolveDynamicForces]
    rw [if_neg hm', if_neg hcond, if_pos hv, if_pos hdrive]
  · intro hdrive
    simp only [resolveDynamicForces]
    rw [if_neg hm', if_neg hcond, if_pos hv, if_neg (not_le.mpr hdrive)]

/-- Witness for C1: a held configuration evaluated at a concrete near-rest
speed of either sign. -/
theorem resolveDynamic_nearRest_static_decision_witness :
    resolveDynamicForces ⟨6, 1, 0.2, true, 10, 0.00005⟩ =
      { accelerationMps2 := 0
        tensionN := 10
        frictionSignedN := -10
        frictionMagnitudeN := 10
        netForceN := 0
        driveForceN := 10
        mode := Mode.static_hold } := by
  have h :=
    (resolveDynamic_nearRest_static_decision 6 1 0.2 10 0.00005
      (by norm_num) (by norm_num [max_def])
      (by norm_num [VELOCITY_EPSILON, abs_le])).2.1
      (by norm_num [max_def])
  rw [h]
  norm_num [max_def]

/-- Claim C2: with both masses and gravity positive and friction disabled
(or a zero coefficient), the from-rest solver returns the closed-form
acceleration `massHanging * gravity / (massHanging + massTable)`, the
matching tension, zero friction, net force equal to the drive force
`massHanging * gravity`, mode `frictionless`, and reports motion. -/
theorem calculateFromRest_frictionless_closed_form (mT mH mu g d : ℝ) (fe : Bool)
    (hmT : 0 < mT) (hmH : 0 < mH) (hg : 0 < g) (hfe : fe = false ∨ mu = 0) :
    (calculateHalfAtwoodFromRest ⟨mT, mH, mu, fe, g, d⟩).accelerationMps2 =
      mH * g / (mH + mT) ∧
    (calculateHalfAtwoodFromRest ⟨mT, mH, mu, fe, g, d⟩).tensionN =
      mH * (g - mH * g / (mH + mT)) ∧
    (calculateHalfAtwoodFromRest ⟨mT, mH, mu, fe, g, d⟩).frictionN = 0 ∧
    (calculateHalfAtwoodFromRest ⟨mT, mH, mu, fe, g, d⟩).netForceN = mH * g ∧
    (calculateHalfAtwoodFromRest ⟨mT, mH, mu, fe, g, d⟩).driveForceN = mH * g ∧
    (calculateHalfAtwoodFromRest ⟨mT, mH, mu, fe, g, d⟩).mode = Mode.frictionless ∧
    (calculateHalfAtwoodFromRest ⟨mT, mH, mu, fe, g, d⟩).moved := by
  have hT : max 0 mT = mT := max_eq_right hmT.le
  have hH : max 0 mH = mH := max_eq_right hmH.le
  have hG : max 0 g = g := max_eq_right hg.le
  have hcond : fe = false ∨ max 0 mu = 0 := by
    rcases hfe with h | h
    · exact Or.inl h
    · exact Or.inr (by rw [h]; simp)
  have hm : ¬ (mT + mH ≤ 0) := by push_neg; linarith
  simp only [calculateHalfAtwoodFromRest, hT, hH, hG]
  rw [if_neg hm, if_pos hcond]
  refine ⟨by rw [add_comm mT mH], by rw [add_comm mT mH], rfl, rfl, rfl, rfl, ?_⟩
  show 0 < mH * g / (mT + mH)
  positivity

/-- Witness for C2: the spec's worked example with table mass 2, hanging
mass 1 and gravity 10. -/
theorem calculateFromRest_frictionless_closed_form_witness :
    (calculateHalfAtwoodFromRest ⟨2, 1, 0, false, 10, 2⟩).accelerationMps2 = 10 / 3 ∧
    (calculateHalfAtwoodFromRest ⟨2, 1, 0, false, 10, 2⟩).tensionN = 20 / 3 ∧
    (calculateHalfAtwoodFromRest ⟨2, 1, 0, false, 10, 2⟩).netForceN = 10 ∧
    (calculateHalfAtwoodFromRest ⟨2, 1, 0, false, 10, 2⟩).mode = Mode.frictionless ∧
    (calculateHalfAtwoodFromRest ⟨2, 1, 0, false, 10, 2⟩).moved := by
  have h := calculateFromRest_frictionless_closed_form 2 1 0 10 2 false
    (by norm_num) (by norm_num) (by norm_num) (Or.inr rfl)
  obtain ⟨ha, ht, _, hn, _, hmode, hmoved⟩ := h
  refine ⟨?_, ?_, ?_, hmode, hmoved⟩
  · rw [ha]; norm_num
  · rw [ht]; norm_num
  · rw [hn]; norm_num

/-- Claim C3: with friction enabled, a positive coefficient, positive
clamped total mass and a drive force at most the Coulomb cap, the from-rest
solver reports a static hold: zero acceleration and net force, tension and
friction both equal to the drive force (the balancing value, not the cap),
no motion, and a null time-to-target. -/
theorem calculateFromRest_static_hold (mT mH mu g d : ℝ)
    (hmu : 0 < mu)
    (hm : 0 < max 0 mT + max 0 mH)
    (hdrive : max 0 mH * max 0 g ≤ max 0 mu * max 0 mT * max 0 g) :
    (calculateHalfAtwoodFromRest ⟨mT, mH, mu, true, g, d⟩).mode = Mode.static_hold ∧
    (calculateHalfAtwoodFromRest ⟨mT, mH, mu, true, g, d⟩).accelerationMps2 = 0 ∧
    (calculateHalfAtwoodFromRest ⟨mT, mH, mu, true, g, d⟩).tensionN =
      max 0 mH * max 0 g ∧
    (calculateHalfAtwoodFromRest ⟨mT, mH, mu, true, g, d⟩).frictionN =
      max 0 mH * max 0 g ∧
    (calculateHalfAtwoodFromRest ⟨mT, mH, mu, true, g, d⟩).netForceN = 0 ∧
    ¬ (calculateHalfAtwoodFromRest ⟨mT, mH, mu, true, g, d⟩).moved ∧
    (calculateHalfAtwoodFromRest ⟨mT, mH, mu, true, g, d⟩).timeToTargetS = none := by
  have hMu : max 0 mu = mu := max_eq_right hmu.le
  have hm' : ¬ (max 0 mT + max 0 mH ≤ 0) := not_le.mpr hm
  have hcond : ¬ (true = false ∨ max 0 mu = 0) := by
    simp [hMu, hmu.ne']
  simp only [calculateHalfAtwoodFromRest]
  rw [if_neg hm', if_neg hcond, if_pos hdrive]
  exact ⟨rfl, rfl, rfl, rfl, rfl, not_false, rfl⟩

/-- Witness for C3: the spec's worked example where a drive force of 10 is
held by a friction cap of 12, returning friction 10. -/
theorem calculateFromRest_static_hold_witness :
    (calculateHalfAtwoodFromRest ⟨6, 1, 0.2, true, 10, 2⟩).frictionN = 10 ∧
    (calculateHalfAtwoodFromRest ⟨6, 1, 0.2, true, 10, 2⟩).mode = Mode.static_hold ∧
    (calculateHalfAtwoodFromRest ⟨6, 1, 0.2, true, 10, 2⟩).accelerationMps2 = 0 ∧
    (calculateHalfAtwoodFromRest ⟨6, 1, 0.2, true, 10, 2⟩).timeToTargetS = none := by
  have h := calculateFromRest_static_hold 6 1 0.2 10 2
    (by norm_num) (by norm_num [max_def]) (by norm_num [max_def])
  obtain ⟨hmode, ha, _, hf, _, _, htime⟩ := h
  refine ⟨?_, hmode, ha, htime⟩
  rw [hf]
  norm_num [max_def]

/-- Counterexample for C4: the claim quantifies over every mass pair and
gravity, but with a zero table mass the kinetic friction magnitude is zero
and the signed friction of a rightward run is 0, not negative, even though
the friction coefficient is positive and the speed exceeds the epsilon. -/
theorem resolveDynamic_friction_direction_cex :
    0 < (1:ℝ) ∧ VELOCITY_EPSILON < (1:ℝ) ∧
    ¬ ((resolveDynamicForces ⟨0, 1, 1, true, 10, 1⟩).frictionSignedN < 0) := by
  refine ⟨by norm_num, by norm_num [VELOCITY_EPSILON], ?_⟩
  norm_num [resolveDynamicForces, max_def, VELOCITY_EPSILON, abs_le]

/-- Claim C4 (amended: the table mass and gravity must be positive, so that
the kinetic friction magnitude is nonzero): with friction enabled, a speed
above `VELOCITY_EPSILON` gives negative signed friction and kinetic mode;
the mirrored negative speed gives positive signed friction; signed friction
is minus the Coulomb magnitude for the rightward run, net force equals
drive force plus signed friction in both runs, and the leftward run has
strictly greater acceleration than the rightward run. -/
theorem resolveDynamic_friction_direction (mT mH mu g v : ℝ)
    (hmT : 0 < mT) (hg : 0 < g) (hmu : 0 < mu) (hv : VELOCITY_EPSILON < v) :
    (resolveDynamicForces ⟨mT, mH, mu, true, g, v⟩).frictionSignedN < 0 ∧
    (resolveDynamicForces ⟨mT, mH, mu, true, g, v⟩).mode = Mode.kinetic ∧
    0 < (resolveDynamicForces ⟨mT, mH, mu, true, g, -v⟩).frictionSignedN ∧
    (resolveDynamicForces ⟨mT, mH, mu, true, g, v⟩).frictionSignedN = -(mu * mT * g) ∧
    (resolveDynamicForces ⟨mT, mH, mu, true, g, v⟩).netForceN =
      (resolveDynamicForces ⟨mT, mH, mu, true, g, v⟩).driveForceN +
      (resolveDynamicForces ⟨mT, mH, mu, true, g, v⟩).frictionSignedN ∧
    (resolveDynamicForces ⟨mT, mH, mu, true, g, -v⟩).netForceN =
      (resolveDynamicForces ⟨mT, mH, mu, true, g, -v⟩).driveForceN +
      (resolveDynamicForces ⟨mT, mH, mu, true, g, -v⟩).frictionSignedN ∧
    (resolveDynamicForces ⟨mT, mH, mu, true, g, v⟩).accelerationMps2 <
      (resolveDynamicForces ⟨mT, mH, mu, true, g, -v⟩).accelerationMps2 := by
  have hT : max 0 mT = mT := max_eq_right hmT.le
  have hG : max 0 g = g := max_eq_right hg.le
  have hMu : max 0 mu = mu := max_eq_right hmu.le
  have heps : (0:ℝ) < VELOCITY_EPSILON := by norm_num [VELOCITY_EPSILON]
  have hv0 : 0 < v := heps.trans hv
  have habs : ¬ (|v| ≤ VELOCITY_EPSILON) := by
    rw [abs_of_pos hv0]; exact not_le.mpr hv
  have habsneg : ¬ (|(-v)| ≤ VELOCITY_EPSILON) := by rwa [abs_neg]
  have hmH0 : 0 ≤ max 0 mH := le_max_left 0 mH
  have hm' : ¬ (max 0 mT + max 0 mH ≤ 0) := by
    push_neg
    rw [hT]
    linarith
  have hcond : ¬ (true = false ∨ max 0 mu = 0) := by simp [hMu, hmu.ne']
  have hnn : ¬ (0 < -v) := by push_neg; linarith
  have hkin : 0 < mu * mT * g := by positivity
  have htot : 0 < mT + max 0 mH := by linarith
  simp only [resolveDynamicForces]
  rw [if_neg hm', if_neg hcond, if_neg habs, if_pos hv0,
      if_neg hm', if_neg hcond, if_neg habsneg, if_neg hnn, hT, hG, hMu]
  refine ⟨by linarith, rfl, by linarith, rfl, rfl, rfl, ?_⟩
  rw [div_lt_div_iff_of_pos_right (by rw [add_comm] at htot ⊢; exact htot)]
  linarith

/-- Witness for C4: the repository's own test configuration, masses 4 and 2,
coefficient 0.25, gravity 10 and speed 1.4. -/
theorem resolveDynamic_friction_direction_witness :
    (resolveDynamicForces ⟨4, 2, 0.25, true, 10, 1.4⟩).frictionSignedN < 0 ∧
    (resolveDynamicForces ⟨4, 2, 0.25, true, 10, 1.4⟩).mode = Mode.kinetic ∧
    0 < (resolveDynamicForces ⟨4, 2, 0.25, true, 10, -1.4⟩).frictionSignedN ∧
    (resolveDynamicForces ⟨4, 2, 0.25, true, 10, 1.4⟩).frictionSignedN =
      -(0.25 * 4 * 10) ∧
    (resolveDynamicForces ⟨4, 2, 0.25, true, 10, 1.4⟩).netForceN =
      (resolveDynamicForces ⟨4, 2, 0.25, true, 10, 1.4⟩).driveForceN +
      (resolveDynamicForces ⟨4, 2, 0.25, true, 10, 1.4⟩).frictionSignedN ∧
    (resolveDynamicForces ⟨4, 2, 0.25, true, 10, -1.4⟩).netForceN =
      (resolveDynamicForces ⟨4, 2, 0.25, true, 10, -1.4⟩).driveForceN +
      (resolveDynamicForces ⟨4, 2, 0.25, true, 10, -1.4⟩).frictionSignedN ∧
    (resolveDynamicForces ⟨4, 2, 0.25, true, 10, 1.4⟩).accelerationMps2 <
      (resolveDynamicForces ⟨4, 2, 0.25, true, 10, -1.4⟩).accelerationMps2 :=
  resolveDynamic_friction_direction 4 2 0.25 10 1.4
    (by norm_num) (by norm_num) (by norm_num) (by norm_num [VELOCITY_EPSILON])

/-- Claim C5: for positive frequency and speed and nonnegative tube
diameter, inferring the speed of sound back from the first-harmonic air
length returns the original speed exactly: `inferredSpeedMps` is the
algebraic inverse of the length formula. -/
theorem inferredSpeed_firstHarmonic_roundTrip (f s d : ℝ)
    (hf : 0 < f) (hs : 0 < s) (hd : 0 ≤ d) :
    inferredSpeedMps ⟨f, firstHarmonicAirLengthM ⟨f, s, d⟩, d⟩ = s := by
  have hf' : f ≠ 0 := ne_of_gt hf
  simp only [inferredSpeedMps, firstHarmonicAirLengthM, END_CORRECTION_FACTOR]
  field_simp
  ring

/-- Witness for C5: the repository test's 384 Hz, 343 m/s, 4 cm tube. -/
theorem inferredSpeed_firstHarmonic_roundTrip_witness :
    inferredSpeedMps ⟨384, firstHarmonicAirLengthM ⟨384, 343, 0.04⟩, 0.04⟩ = 343 :=
  inferredSpeed_firstHarmonic_roundTrip 384 343 0.04
    (by norm_num) (by norm_num) (by norm_num)

/-- Claim C6: with the bandwidth argument omitted, `resonanceStrength` is
the Gaussian of the offset with default bandwidth `max 0.008 (target *
0.06)`; it is exactly 1 at the target, strictly smaller at any strictly
larger absolute offset, and always lies in the half-open interval (0, 1]. -/
theorem resonanceStrength_gaussian_props (t a a1 a2 : ℝ) (h : |a1 - t| < |a2 - t|) :
    resonanceStrength ⟨a, t, none⟩ =
      Real.exp (-((a - t) * (a - t)) /
        (2 * max 0.008 (t * 0.06) * max 0.008 (t * 0.06))) ∧
    resonanceStrength ⟨t, t, none⟩ = 1 ∧
    resonanceStrength ⟨a2, t, none⟩ < resonanceStrength ⟨a1, t, none⟩ ∧
    0 < resonanceStrength ⟨a, t, none⟩ ∧
    resonanceStrength ⟨a, t, none⟩ ≤ 1 := by
  have h2b : (0:ℝ) < 2 * max 0.008 (t * 0.06) * max 0.008 (t * 0.06) := by
    have hb : (0:ℝ) < max 0.008 (t * 0.06) := lt_max_of_lt_left (by norm_num)
    positivity
  refine ⟨rfl, ?_, ?_, Real.exp_pos _, ?_⟩
  · simp [resonanceStrength]
  · simp only [resonanceStrength, Option.getD_none]
    apply Real.exp_lt_exp.mpr
    rw [neg_div, neg_div, neg_lt_neg_iff, div_lt_div_iff_of_pos_right h2b]
    have hsq := mul_self_lt_mul_self (abs_nonneg (a1 - t)) h
    rwa [abs_mul_abs_self, abs_mul_abs_self] at hsq
  · simp only [resonanceStrength, Option.getD_none]
    apply Real.exp_le_one_iff.mpr
    apply div_nonpos_of_nonpos_of_nonneg
    · exact neg_nonpos.mpr (mul_self_nonneg _)
    · exact h2b.le

/-- Witness for C6: peak value and strict falloff around the repository
test's target length of 0.21 m. -/
theorem resonanceStrength_gaussian_props_witness :
    resonanceStrength ⟨0.21, 0.21, none⟩ = 1 ∧
    resonanceStrength ⟨0.22, 0.21, none⟩ < resonanceStrength ⟨0.215, 0.21, none⟩ ∧
    0 < resonanceStrength ⟨0.25, 0.21, none⟩ ∧
    resonanceStrength ⟨0.25, 0.21, none⟩ ≤ 1 := by
  have h := resonanceStrength_gaussian_props 0.21 0.25 0.215 0.22
    (by rw [show (0.215:ℝ) - 0.21 = 0.005 by norm_num,
            show (0.22:ℝ) - 0.21 = 0.01 by norm_num,
            abs_of_pos (by norm_num), abs_of_pos (by norm_num)]
        norm_num)
  exact ⟨h.2.1, h.2.2.1, h.2.2.2.1, h.2.2.2.2⟩

/-- Claim C7: `qualityBand` accepts exactly the strengths at or above 0.94
(labelled High), labels strengths in [0.8, 0.94) Fair without accepting
them, labels everything below 0.8 "Off peak", and both thresholds are
inclusive on the lower bound; in particular 0.95 is accepted, 0.85 is not,
and 0.4 is off peak. -/
theorem qualityBand_thresholds (s : ℝ) :
    ((qualityBand s).accepted = true ↔ 0.94 ≤ s) ∧
    ((qualityBand s).label = "High" ↔ 0.94 ≤ s) ∧
    ((qualityBand s).label = "Fair" ↔ 0.8 ≤ s ∧ s < 0.94) ∧
    ((qualityBand s).label = "Off peak" ↔ s < 0.8) ∧
    (qualityBand 0.95).accepted = true ∧
    (qualityBand 0.85).accepted = false ∧
    (qualityBand 0.4).label = "Off peak" := by
  refine ⟨?_, ?_, ?_, ?_, by norm_num [qualityBand], by norm_num [qualityBand],
    by norm_num [qualityBand]⟩ <;>
  · unfold qualityBand
    split_ifs with h1 h2 <;> simp_all <;> try linarith

/-- Claim C8: both solvers clamp table mass, hanging mass, gravity, the
friction coefficient (and, for the from-rest solver, the target distance)
to nonnegative values before any use and never reject an input: each
solver's result equals its result on the input with those fields floored at
zero, while the dynamic velocity stays signed and unclamped. -/
theorem solvers_clamp_negative_inputs (inp : FromRestInput) (dinp : DynamicInput) :
    calculateHalfAtwoodFromRest inp =
      calculateHalfAtwoodFromRest
        ⟨max 0 inp.massTableKg, max 0 inp.massHangingKg, max 0 inp.mu,
         inp.frictionEnabled, max 0 inp.gravity, max 0 inp.targetDistanceM⟩ ∧
    resolveDynamicForces dinp =
      resolveDynamicForces
        ⟨max 0 dinp.massTableKg, max 0 dinp.massHangingKg, max 0 dinp.mu,
         dinp.frictionEnabled, max 0 dinp.gravity, dinp.velocityMps⟩ := by
  have hidem : ∀ x : ℝ, max 0 (max 0 x) = max 0 x := fun x => max_eq_right (le_max_left 0 x)
  constructor <;> simp only [calculateHalfAtwoodFromRest, resolveDynamicForces, hidem]

/-- Claim C9: in every result of the from-rest solver, the time to target
is non-null exactly when the computed acceleration and the clamped target
distance are both positive, in which case it is the square root of twice
the distance over the acceleration, and `moved` holds exactly when the
acceleration is positive. -/
theorem timeToTarget_null_iff (inp : FromRestInput) :
    ((calculateHalfAtwoodFromRest inp).timeToTargetS =
      if 0 < (calculateHalfAtwoodFromRest inp).accelerationMps2 ∧
          0 < max 0 inp.targetDistanceM
      then some (Real.sqrt (2 * max 0 inp.targetDistanceM /
        (calculateHalfAtwoodFromRest inp).accelerationMps2))
      else none) ∧
    ((calculateHalfAtwoodFromRest inp).moved ↔
      0 < (calculateHalfAtwoodFromRest inp).accelerationMps2) := by
  by_cases h1 : max 0 inp.massTableKg + max 0 inp.massHangingKg ≤ 0
  · simp only [calculateHalfAtwoodFromRest]
    rw [if_pos h1]
    simp
  · by_cases h2 : inp.frictionEnabled = false ∨ max 0 inp.mu = 0
    · simp only [calculateHalfAtwoodFromRest]
      rw [if_neg h1, if_pos h2]
      exact ⟨rfl, Iff.rfl⟩
    · by_cases h3 : max 0 inp.massHangingKg * max 0 inp.gravity ≤
        max 0 inp.mu * max 0 inp.massTableKg * max 0 inp.gravity
      · simp only [calculateHalfAtwoodFromRest]
        rw [if_neg h1, if_neg h2, if_pos h3]
        simp
      · simp only [calculateHalfAtwoodFromRest]
        rw [if_neg h1, if_neg h2, if_neg h3]
        exact ⟨rfl, Iff.rfl⟩

/-- Claim C10: every branch of both solvers is Newton-consistent: the net
force equals clamped total mass times acceleration, the tension equals the
clamped hanging mass times gravity minus acceleration, and in the dynamic
solver the friction magnitude is the absolute value of the signed
friction. -/
theorem newton_consistency (inp : FromRestInput) (dinp : DynamicInput) :
    ((calculateHalfAtwoodFromRest inp).netForceN =
      (max 0 inp.massTableKg + max 0 inp.massHangingKg) *
        (calculateHalfAtwoodFromRest inp).accelerationMps2 ∧
     (calculateHalfAtwoodFromRest inp).tensionN =
      max 0 inp.massHangingKg *
        (max 0 inp.gravity - (calculateHalfAtwoodFromRest inp).accelerationMps2)) ∧
    ((resolveDynamicForces dinp).netForceN =
      (max 0 dinp.massTableKg + max 0 dinp.massHangingKg) *
        (resolveDynamicForces dinp).accelerationMps2 ∧
     (resolveDynamicForces dinp).tensionN =
      max 0 dinp.massHangingKg *
        (max 0 dinp.gravity - (resolveDynamicForces dinp).accelerationMps2) ∧
     (resolveDynamicForces dinp).frictionMagnitudeN =
      |(resolveDynamicForces dinp).frictionSignedN|) := by
  constructor
  · by_cases h1 : max 0 inp.massTableKg + max 0 inp.massHangingKg ≤ 0
    · have hmH : max 0 inp.massHangingKg = 0 := by
        have a1 := le_max_left (0:ℝ) inp.massTableKg
        have a2 := le_max_left (0:ℝ) inp.massHangingKg
        linarith
      simp only [calculateHalfAtwoodFromRest]
      rw [if_pos h1]
      dsimp only
      exact ⟨by ring, by rw [hmH]; ring⟩
    · have htot : (max 0 inp.massTableKg + max 0 inp.massHangingKg) ≠ 0 :=
        (not_le.mp h1).ne'
      by_cases h2 : inp.frictionEnabled = false ∨ max 0 inp.mu = 0
      · simp only [calculateHalfAtwoodFromRest]
        rw [if_neg h1, if_pos h2]
        dsimp only
        refine ⟨?_, rfl⟩
        field_simp
      · by_cases h3 : max 0 inp.massHangingKg * max 0 inp.gravity ≤
          max 0 inp.mu * max 0 inp.massTableKg * max 0 inp.gravity
        · simp only [calculateHalfAtwoodFromRest]
          rw [if_neg h1, if_neg h2, if_pos h3]
          dsimp only
          exact ⟨by ring, by ring⟩
        · simp only [calculateHalfAtwoodFromRest]
          rw [if_neg h1, if_neg h2, if_neg h3]
          dsimp only
          refine ⟨?_, rfl⟩
          field_simp
  · by_cases h1 : max 0 dinp.massTableKg + max 0 dinp.massHangingKg ≤ 0
    · have hmH : max 0 dinp.massHangingKg = 0 := by
        have a1 := le_max_left (0:ℝ) dinp.massTableKg
        have a2 := le_max_left (0:ℝ) dinp.massHangingKg
        linarith
      simp only [resolveDynamicForces]
      rw [if_pos h1]
      dsimp only
      exact ⟨by ring, by rw [hmH]; ring, by simp⟩
    · have htot : (max 0 dinp.massTableKg + max 0 dinp.massHangingKg) ≠ 0 :=
        (not_le.mp h1).ne'
      have hdrive : (0:ℝ) ≤ max 0 dinp.massHangingKg * max 0 dinp.gravity := by positivity
      have hkin : (0:ℝ) ≤ max 0 dinp.mu * max 0 dinp.massTableKg * max 0 dinp.gravity := by
        positivity
      by_cases h2 : dinp.frictionEnabled = false ∨ max 0 dinp.mu = 0
      · simp only [resolveDynamicForces]
        rw [if_neg h1, if_pos h2]
        dsimp only
        refine ⟨?_, rfl, by simp⟩
        field_simp
      · by_cases h4 : |dinp.velocityMps| ≤ VELOCITY_EPSILON
        · by_cases h5 : max 0 dinp.massHangingKg * max 0 dinp.gravity ≤
            max 0 dinp.mu * max 0 dinp.massTableKg * max 0 dinp.gravity
          · simp only [resolveDynamicForces]
            rw [if_neg h1, if_neg h2, if_pos h4, if_pos h5]
            dsimp only
            exact ⟨by ring, by ring, by rw [abs_neg, abs_of_nonneg hdrive]⟩
          · simp only [resolveDynamicForces]
            rw [if_neg h1, if_neg h2, if_pos h4, if_neg h5]
            dsimp only
            refine ⟨?_, rfl, by rw [abs_neg, abs_of_nonneg hkin]⟩
            field_simp
        · by_cases h6 : 0 < dinp.velocityMps
          · simp only [resolveDynamicForces]
            rw [if_neg h1, if_neg h2, if_neg h4, if_pos h6]
            dsimp only
            refine ⟨?_, rfl, by rw [abs_neg, abs_of_nonneg hkin]⟩
            field_simp
          · simp only [resolveDynamicForces]
            rw [if_neg h1, if_neg h2, if_neg h4, if_neg h6]
            dsimp only
            refine ⟨?_, rfl, by rw [abs_of_nonneg hkin]⟩
            field_simp

end
